import Mathlib

/-!
Shallow embedding of the aider-bridge sidecar server
(`src/aider_bridge/server.py`): the sandbox path-guard, the session
operations `set_sandbox`, `add_files`, `remove_files`,
`run_prompt_streaming`, and the JSON-RPC dispatcher `handle_request`
together with the stdio transport loop `run`.

Modelling conventions:
  * Filesystem paths appear in resolved canonical form, as lists of path
    components (`ResolvedPath`).  Python's `Path(p).resolve()` produces
    such a canonical absolute path; the claims under study quantify over
    the resolved canonical form of a path, so the embedding takes the
    already-resolved components as input and `resolve` is the identity on
    them.  `Path.relative_to` succeeds exactly when the root's component
    list is a prefix of the candidate's component list, and
    `str(resolved) in read_only_files` is exact membership of the
    canonical path in the stored list.
  * Existence on disk (`Path.exists()`) is a predicate `ResolvedPath →
    Bool` passed explicitly to the operations that consult it.
  * The module-level flag `AIDER_AVAILABLE` (set by the import of the
    aider package) is a `Bool` argument of the operations that test it.
  * The editing-engine collaborator (`coder.run`) is an explicit function
    argument: it returns the list of text chunks it wrote to the
    installed output sink followed by either a response string or the
    message of the exception it raised.  Its mutations of files on disk
    are outside the embedded state.
  * Output sinks (`InputOutput` instances) are identified by `IOSink`
    values; `run_prompt_streaming` receives the freshly constructed
    streaming sink as an argument.
-/

/-- A canonical absolute path, as its list of components
(`Path(p).resolve()` output). -/
abbrev ResolvedPath := List String

/-- Identity of an `InputOutput` instance (the output sink objects that
`self.coder.io` may hold). -/
abbrev IOSink := Nat

/-- Render a resolved path the way `str(Path(...))` does. -/
def pathStr (p : ResolvedPath) : String :=
  "/" ++ String.intercalate "/" p

/-- The payload of a `SandboxViolationError` raised by
`AiderBridge._validate_path`: the offending path, the configured root,
the allowlist (read failures only, mirroring the two message formats at
`server.py` lines 128-140), and the branch label. -/
structure SandboxViolation where
  path : ResolvedPath
  root : ResolvedPath
  allowlist : Option (List ResolvedPath)
  branch : Option String
  deriving Repr, DecidableEq

/-- The slice of the Aider `Coder` object that the bridge reads and
writes: the active-file set `abs_fnames`, the output sink `io`, and the
two command fields. -/
structure Coder where
  absFnames : Finset ResolvedPath
  ioSink : IOSink
  testCmd : Option String := none
  lintCmd : Option String := none

/-- The mutable state of one `AiderBridge` instance (`server.py` lines
42-50): the optional coder handle and the sandbox configuration fields
`sandbox_root`, `read_only_files`, `branch_id`. -/
structure BridgeState where
  coder : Option Coder := none
  sandbox_root : Option ResolvedPath := none
  read_only_files : List ResolvedPath := []
  branch_id : Option String := none

/-- `AiderBridge._validate_path` (`server.py` lines 94-140), on the
resolved form of the candidate path.  With no sandbox everything is
allowed; otherwise a path under the root is allowed; otherwise, for
reads only, an exact allowlist member is allowed; every other case
raises `SandboxViolationError` (modelled as `Except.error`). -/
def validate_path (st : BridgeState) (resolved : ResolvedPath)
    (for_write : Bool) : Except SandboxViolation ResolvedPath :=
  match st.sandbox_root with
  | none => .ok resolved
  | some root =>
    if root.isPrefixOf resolved then
      .ok resolved
    else if !for_write && st.read_only_files.contains resolved then
      .ok resolved
    else if for_write then
      .error ⟨resolved, root, none, st.branch_id⟩
    else
      .error ⟨resolved, root, some st.read_only_files, st.branch_id⟩

/-- The structured result dictionary returned by `set_sandbox`. -/
structure SetSandboxResult where
  success : Bool
  error : Option String := none
  sandbox_root : Option ResolvedPath := none
  read_only_files : List ResolvedPath := []
  branch_id : Option String := none
  deriving Repr

/-- `AiderBridge.set_sandbox` (`server.py` lines 52-92).  Note the order
of operations in the source: the three configuration fields are assigned
first (lines 65-67) and the existence check on the new root runs only
afterwards (line 69), so the state update happens on the failure path
too.  Inputs arrive in resolved form (the source resolves them on lines
65-66). -/
def set_sandbox (fsExists : ResolvedPath → Bool) (st : BridgeState)
    (root : ResolvedPath) (ro : List ResolvedPath)
    (branch : Option String) : BridgeState × SetSandboxResult :=
  let st' := { st with
    sandbox_root := some root
    read_only_files := ro
    branch_id := branch }
  if !fsExists root then
    (st', { success := false
            error := some ("Sandbox root does not exist: " ++ pathStr root) })
  else
    (st', { success := true
            sandbox_root := some root
            read_only_files := ro
            branch_id := branch })

/-- A `notification` frame pushed by `_send_notification`
(`server.py` lines 1013-1023): a level ("warning" or "error") and a
message. -/
structure BridgeNote where
  level : String
  message : String
  deriving Repr, DecidableEq

/-- The result dictionary of `add_files` (`server.py` lines 400-410):
the dynamically-added keys `blocked_by_sandbox` and `warning` are
`Option`-valued, and `error` is the failure-shape key. -/
structure AddFilesResult where
  success : Bool
  error : Option String := none
  files_added : List ResolvedPath := []
  blocked_by_sandbox : Option (List ResolvedPath) := none
  warning : Option String := none

/-- The per-path loop of `add_files` (`server.py` lines 383-394):
returns the validated-and-existing paths (`abs_paths`), the blocked
paths (`blocked_paths`) and the notifications pushed, each in
encounter order. -/
def add_files_scan (st : BridgeState) (fsExists : ResolvedPath → Bool) :
    List ResolvedPath →
      List ResolvedPath × List ResolvedPath × List BridgeNote
  | [] => ([], [], [])
  | fp :: rest =>
    let (abs, blocked, notes) := add_files_scan st fsExists rest
    match validate_path st fp false with
    | .ok absPath =>
      if fsExists absPath then
        (absPath :: abs, blocked, notes)
      else
        (abs, blocked,
          ⟨"warning", "File not found: " ++ pathStr fp⟩ :: notes)
    | .error _ =>
      (abs, fp :: blocked,
        ⟨"error", "Sandbox violation: " ++ pathStr fp⟩ :: notes)

/-- `AiderBridge.add_files` (`server.py` lines 356-417): after the
availability and initialization guards, each path is validated with read
intent and checked for existence; survivors are unioned into
`coder.abs_fnames` (a Python set, modelled as a `Finset`); blocked paths
are reported in `blocked_by_sandbox` with a warning, not as a whole-call
failure. -/
def add_files (avail : Bool) (fsExists : ResolvedPath → Bool)
    (st : BridgeState) (paths : List ResolvedPath) :
    BridgeState × AddFilesResult × List BridgeNote :=
  if !avail then
    (st, { success := false
           error := some "Aider is not installed. Run: pip install aider-chat" },
      [])
  else
    match st.coder with
    | none =>
      (st, { success := false
             error := some "Not initialized. Call initialize() first." }, [])
    | some c =>
      let (absPaths, blockedPaths, notes) := add_files_scan st fsExists paths
      let c' :=
        if absPaths.isEmpty then c
        else { c with absFnames := c.absFnames ∪ absPaths.toFinset }
      let base : AddFilesResult := { success := true, files_added := absPaths }
      let result :=
        if blockedPaths.isEmpty then base
        else { base with
          blocked_by_sandbox := some blockedPaths
          warning := some (toString blockedPaths.length
            ++ " files blocked by sandbox") }
      ({ st with coder := some c' }, result, notes)

/-- The result dictionary of `remove_files` (`server.py` lines 452-456). -/
structure RemoveFilesResult where
  success : Bool
  error : Option String := none
  files_removed : List ResolvedPath := []

/-- `AiderBridge.remove_files` (`server.py` lines 419-463): after the
same two guards, each path is resolved (no sandbox validation) and
discarded from `coder.abs_fnames`; removing an absent path is a no-op. -/
def remove_files (avail : Bool) (st : BridgeState)
    (paths : List ResolvedPath) : BridgeState × RemoveFilesResult :=
  if !avail then
    (st, { success := false
           error := some "Aider is not installed. Run: pip install aider-chat" })
  else
    match st.coder with
    | none =>
      (st, { success := false
             error := some "Not initialized. Call initialize() first." })
    | some c =>
      let c' := { c with
        absFnames := paths.foldl (fun s fp => s.erase fp) c.absFnames }
      ({ st with coder := some c' }, { success := true, files_removed := paths })

/-- The active-file set of a bridge state (`coder.abs_fnames`, empty
when uninitialized, as `get_context_files` reports). -/
def activeFiles (st : BridgeState) : Finset ResolvedPath :=
  match st.coder with
  | none => ∅
  | some c => c.absFnames

/-! ## Theorems about the path guard -/

/-- C6: a path resolving under the configured sandbox root passes the
write-intent check, whatever the allowlist holds: the descendant test at
`server.py` line 116 runs first and returns immediately. -/
theorem validate_under_root_write_ok (st : BridgeState)
    (root p : ResolvedPath) (hroot : st.sandbox_root = some root)
    (hdesc : root.isPrefixOf p = true) :
    validate_path st p true = .ok p := by
  simp [validate_path, hroot, hdesc]

/-- Witness for `validate_under_root_write_ok` at a concrete
configuration with a populated allowlist. -/
theorem validate_under_root_write_ok_witness :
    validate_path
      { sandbox_root := some ["sbx"],
        read_only_files := [["sbx", "cfg"], ["etc", "hosts"]] }
      ["sbx", "cfg"] true = .ok ["sbx", "cfg"] :=
  validate_under_root_write_ok _ ["sbx"] _ rfl (by decide)

/-- C2: with a sandbox configured, a path that neither lies under the
root nor is an exact allowlist member is rejected for both intents, with
the `SandboxViolationError` payloads of `server.py` lines 128-140 (the
allowlist appears in the read message only); and these are the only
cases: validation succeeds exactly when the path is under the root or
the intent is read and the path is an allowlist member. -/
theorem validate_outside_sandbox_fails (st : BridgeState)
    (root p : ResolvedPath) (hroot : st.sandbox_root = some root) :
    (root.isPrefixOf p = false → p ∉ st.read_only_files →
      validate_path st p false
          = .error ⟨p, root, some st.read_only_files, st.branch_id⟩ ∧
      validate_path st p true = .error ⟨p, root, none, st.branch_id⟩) ∧
    (∀ w : Bool, (∃ q, validate_path st p w = .ok q) ↔
      (root.isPrefixOf p = true ∨
        (w = false ∧ p ∈ st.read_only_files))) := by
  constructor
  · intro hdesc hmem
    simp [validate_path, hroot, hdesc, hmem]
  · intro w
    cases hdesc : root.isPrefixOf p with
    | true => simp [validate_path, hroot, hdesc]
    | false =>
      by_cases hmem : p ∈ st.read_only_files
      · cases w <;> simp [validate_path, hroot, hdesc, hmem]
      · cases w <;> simp [validate_path, hroot, hdesc, hmem]

/-- Witness for `validate_outside_sandbox_fails` on a concrete
configuration and a path outside the root and off the allowlist. -/
theorem validate_outside_sandbox_fails_witness :
    validate_path
        { sandbox_root := some ["sbx"], read_only_files := [["lib", "a"]],
          branch_id := some "b1" }
        ["etc", "passwd"] false
      = .error ⟨["etc", "passwd"], ["sbx"], some [["lib", "a"]], some "b1"⟩ := by
  have h := validate_outside_sandbox_fails
    { sandbox_root := some ["sbx"], read_only_files := [["lib", "a"]],
      branch_id := some "b1" }
    ["sbx"] ["etc", "passwd"] rfl
  exact (h.1 (by decide) (by decide)).1

/-- `validate_path` reads only the sandbox-configuration fields of the
state, so states agreeing on those fields validate identically. -/
theorem validate_path_config_eq (st st' : BridgeState)
    (h1 : st'.sandbox_root = st.sandbox_root)
    (h2 : st'.read_only_files = st.read_only_files)
    (h3 : st'.branch_id = st.branch_id) (p : ResolvedPath) (w : Bool) :
    validate_path st' p w = validate_path st p w := by
  unfold validate_path
  rw [h1, h2, h3]

/-- `add_files_scan` likewise depends only on the sandbox-configuration
fields of the state. -/
theorem add_files_scan_config_eq (st st' : BridgeState)
    (fsExists : ResolvedPath → Bool)
    (h1 : st'.sandbox_root = st.sandbox_root)
    (h2 : st'.read_only_files = st.read_only_files)
    (h3 : st'.branch_id = st.branch_id) (l : List ResolvedPath) :
    add_files_scan st' fsExists l = add_files_scan st fsExists l := by
  induction l with
  | nil => rfl
  | cons fp rest ih =>
    simp only [add_files_scan, ih, validate_path_config_eq st st' h1 h2 h3]

/-- One `stream` notification frame, as produced by
`_send_stream_notification` (`server.py` lines 1000-1011): an event
type and a content string.  The four event types used are `start`,
`token`, `complete` and `error`. -/
inductive StreamEvent
  | start
  | token (content : String)
  | complete
  | srvError (message : String)
  deriving Repr, DecidableEq

/-- The editing-discipline preamble assembled at `server.py` lines
911-935 (the `action_prefix` triple-quoted literal). -/
def action_prefix_text : String :=
  "You are an expert code editor. Follow these coding standards:\n\n"
    ++ "## EDITING APPROACH:\n"
    ++ "1. Make TARGETED edits - only change the specific lines that need modification\n"
    ++ "2. Use SEARCH/REPLACE blocks to show exactly what you\x27re changing\n"
    ++ "3. Never rewrite entire files - focus on the relevant sections\n"
    ++ "4. If you see linter markers or error output, IGNORE them and proceed\n\n"
    ++ "## CODE QUALITY:\n"
    ++ "1. Add clear, descriptive comments explaining complex logic\n"
    ++ "2. Use JSDoc/docstrings for functions: describe purpose, params, return values\n"
    ++ "3. Keep variable and function names descriptive and consistent\n"
    ++ "4. Follow the existing code style and conventions in the file\n\n"
    ++ "## BEFORE EDITING:\n"
    ++ "1. Search to find where the code is defined\n"
    ++ "2. Check how it\x27s used elsewhere\n"
    ++ "3. Understand the context before making changes\n\n"
    ++ "## AFTER EDITING:\n"
    ++ "1. Briefly explain what you changed and why\n"
    ++ "2. List any files that were modified\n\n"
    ++ "Now make these changes:\n"

/-- The `enhanced_message` computed at `server.py` line 936:
`action_prefix + message`.  (In the source this value is computed and
then never used again — the call at line 972 passes the bare
`message`.) -/
def enhanced_message (message : String) : String :=
  action_prefix_text ++ message

/-- The observable outcome of one `run_prompt_streaming` call: the
final bridge state, the argument(s) actually handed to `coder.run`, the
`stream` events pushed in order, and the result dictionary's key
fields. -/
structure StreamOutcome where
  state : BridgeState
  engineMessages : List String
  events : List StreamEvent
  success : Bool
  error : Option String
  response : Option String

/-- `AiderBridge.run_prompt_streaming` (`server.py` lines 886-998).
The engine collaborator is the function argument `engine`: on a message
it yields the text chunks it wrote to the installed output sink and
either the response string of `coder.run` or the message of the
exception it raised.  The freshly constructed `StreamingIO` sink is the
argument `streamingSink`; the source saves `original_io`, installs the
streaming sink, and restores the original in a `finally` (lines
965-975), so both match arms below put the saved sink back.  The call
at line 972 passes `message` itself to `coder.run`. -/
def run_prompt_streaming (avail : Bool) (streamingSink : IOSink)
    (engine : String → List String × Except String String)
    (st : BridgeState) (message : String) : StreamOutcome :=
  match st.coder with
  | none =>
    { state := st, engineMessages := [], events := [], success := false
      error := some "Not initialized. Call initialize() first."
      response := none }
  | some c =>
    if !avail then
      { state := st, engineMessages := [], events := [], success := false
        error := some "Aider is not installed. Run: pip install aider-chat"
        response := none }
    else
      let originalIo := c.ioSink
      let swapped : Coder := { c with ioSink := streamingSink }
      let (chunks, outcome) := engine message
      let restored : Coder := { swapped with ioSink := originalIo }
      match outcome with
      | .ok response =>
        { state := { st with coder := some restored }
          engineMessages := [message]
          events := .start :: chunks.map .token ++ [.complete]
          success := true, error := none
          response := some (if response.isEmpty then String.join chunks
            else response) }
      | .error e =>
        { state := { st with coder := some restored }
          engineMessages := [message]
          events := .start :: chunks.map .token ++ [.srvError e]
          success := false, error := some e, response := none }

/-- C9: `add_files` is idempotent on the active-file set: under the
normal-operation hypotheses of the claim (engine bound, every path
validating with read intent and existing on disk), a second call with
the same path set leaves `coder.abs_fnames` exactly as the first call
left it. -/
theorem add_files_idempotent (fsExists : ResolvedPath → Bool)
    (st : BridgeState) (paths : List ResolvedPath)
    (hcoder : st.coder.isSome = true)
    (_hvalid : ∀ p ∈ paths,
      validate_path st p false = .ok p ∧ fsExists p = true) :
    activeFiles (add_files true fsExists
        (add_files true fsExists st paths).1 paths).1
      = activeFiles (add_files true fsExists st paths).1 := by
  obtain ⟨c, hc⟩ := Option.isSome_iff_exists.mp hcoder
  clear _hvalid hcoder
  simp only [add_files, Bool.not_true, Bool.false_eq_true, if_false, hc]
  have hscan : add_files_scan { st with coder := some (
      if (add_files_scan st fsExists paths).1.isEmpty then c
      else { c with absFnames :=
        c.absFnames ∪ (add_files_scan st fsExists paths).1.toFinset }) }
      fsExists paths = add_files_scan st fsExists paths :=
    add_files_scan_config_eq st
      { st with coder := some (
          if (add_files_scan st fsExists paths).1.isEmpty then c
          else { c with absFnames :=
            c.absFnames ∪ (add_files_scan st fsExists paths).1.toFinset }) }
      fsExists rfl rfl rfl paths
  simp only [activeFiles, hscan]
  by_cases hemp : (add_files_scan st fsExists paths).1.isEmpty
  · simp [hemp]
  · simp [hemp, Finset.union_assoc]

/-- Witness for `add_files_idempotent` on a concrete initialized state
and a concrete path set that validates and exists. -/
theorem add_files_idempotent_witness :
    activeFiles (add_files true (fun _ => true)
        (add_files true (fun _ => true)
          { coder := some { absFnames := ∅, ioSink := 0 },
            sandbox_root := none }
          [["repo", "a"]]).1 [["repo", "a"]]).1
      = activeFiles (add_files true (fun _ => true)
          { coder := some { absFnames := ∅, ioSink := 0 },
            sandbox_root := none }
          [["repo", "a"]]).1 :=
  add_files_idempotent (fun _ => true)
    { coder := some { absFnames := ∅, ioSink := 0 }, sandbox_root := none }
    [["repo", "a"]] rfl
    (by intro p hp; simp at hp; subst hp; exact ⟨rfl, rfl⟩)

/-- C10: with a live-looking environment but no engine handle bound
(before `initialize` or after `shutdown`), `add_files` and
`remove_files` both return the structured failure of `server.py` lines
372-376 and 435-439, whose message mentions initialization, leave the
session state untouched, and emit no notifications. -/
theorem uninitialized_file_ops_fail (fsExists : ResolvedPath → Bool)
    (st : BridgeState) (paths paths' : List ResolvedPath)
    (hcoder : st.coder = none) :
    (add_files true fsExists st paths).1 = st ∧
    (add_files true fsExists st paths).2.1.success = false ∧
    (add_files true fsExists st paths).2.1.error
      = some "Not initialized. Call initialize() first." ∧
    (add_files true fsExists st paths).2.2 = [] ∧
    (remove_files true st paths').1 = st ∧
    (remove_files true st paths').2.success = false ∧
    (remove_files true st paths').2.error
      = some "Not initialized. Call initialize() first." ∧
    "initialize".data <:+: "Not initialized. Call initialize() first.".data := by
  refine ⟨?_, ?_, ?_, ?_, ?_, ?_, ?_, ?_⟩
  case' refine_8 => exact ⟨"Not ".data, "d. Call initialize() first.".data, rfl⟩
  all_goals simp [add_files, remove_files, hcoder]

/-- Witness for `uninitialized_file_ops_fail` on the freshly created
(empty) bridge state. -/
theorem uninitialized_file_ops_fail_witness :
    (add_files true (fun _ => true) {} [["repo", "a"]]).2.1.success = false ∧
    (remove_files true {} [["repo", "b"]]).2.error
      = some "Not initialized. Call initialize() first." := by
  have h := uninitialized_file_ops_fail (fun _ => true) {}
    [["repo", "a"]] [["repo", "b"]] rfl
  exact ⟨h.2.1, h.2.2.2.2.2.2.1⟩

/-- C3 (counterexample): `set_sandbox` assigns the new configuration
(`server.py` lines 65-67) before the existence check on the new root
(line 69), so a call that fails because the root does not exist has
already replaced the previously configured root, allowlist and label —
the prior configuration is not left unchanged on failure. -/
theorem set_sandbox_failed_call_replaces_config :
    ((set_sandbox (fun p => p == ["old"])
        { sandbox_root := some ["old"], read_only_files := [["keep"]],
          branch_id := some "b0" }
        ["missing"] [] (some "b1")).2.success = false) ∧
    ((set_sandbox (fun p => p == ["old"])
        { sandbox_root := some ["old"], read_only_files := [["keep"]],
          branch_id := some "b0" }
        ["missing"] [] (some "b1")).1.sandbox_root = some ["missing"]) ∧
    ((set_sandbox (fun p => p == ["old"])
        { sandbox_root := some ["old"], read_only_files := [["keep"]],
          branch_id := some "b0" }
        ["missing"] [] (some "b1")).1.read_only_files = []) ∧
    ((set_sandbox (fun p => p == ["old"])
        { sandbox_root := some ["old"], read_only_files := [["keep"]],
          branch_id := some "b0" }
        ["missing"] [] (some "b1")).1.branch_id = some "b1") := by
  refine ⟨rfl, rfl, rfl, rfl⟩

/-- C3 (amended): `set_sandbox` does return a failure result whenever
the given root does not exist on disk, but even then the state already
carries the new root, allowlist and label: the replacement happens
before the existence check, on success and failure alike. -/
theorem set_sandbox_nonexistent_root_fails (fsExists : ResolvedPath → Bool)
    (st : BridgeState) (root : ResolvedPath) (ro : List ResolvedPath)
    (branch : Option String) (h : fsExists root = false) :
    (set_sandbox fsExists st root ro branch).2.success = false ∧
    (set_sandbox fsExists st root ro branch).1
      = { st with sandbox_root := some root, read_only_files := ro,
                  branch_id := branch } := by
  simp [set_sandbox, h]

/-- Witness for `set_sandbox_nonexistent_root_fails` on a concrete
state and a root missing from the concrete filesystem. -/
theorem set_sandbox_nonexistent_root_fails_witness :
    (set_sandbox (fun p => p == ["old"])
        { sandbox_root := some ["old"] } ["missing"] [] (some "b1")).2.success
      = false :=
  (set_sandbox_nonexistent_root_fails (fun p => p == ["old"])
    { sandbox_root := some ["old"] } ["missing"] [] (some "b1") rfl).1

/-- C1 (divergence evidence): the descendant check at `server.py` line
116 precedes any consultation of `read_only_files`, so a write-intent
check on an allowlisted path that lies under the sandbox root is
PERMITTED — although the claim, the spec and the docstring of
`_validate_path` ("Raises: SandboxViolationError: If path escapes
sandbox or write to read-only") say it must fail. -/
theorem validate_readonly_under_root_write_permitted :
    validate_path
        { sandbox_root := some ["sbx"],
          read_only_files := [["sbx", "config"]], branch_id := some "b1" }
        ["sbx", "config"] true
      = .ok ["sbx", "config"] := by
  rfl

/-- C7: on every exit path of `run_prompt_streaming` — uninitialized
early return, unavailable early return, normal engine return, and
engine exception — the output sink held by `coder.io` afterwards equals
the sink held before the call, because the `finally` at `server.py`
lines 973-975 restores `original_io` on both outcomes of `coder.run`. -/
theorem run_prompt_streaming_restores_sink (avail : Bool)
    (streamingSink : IOSink)
    (engine : String → List String × Except String String)
    (st : BridgeState) (message : String) :
    (run_prompt_streaming avail streamingSink engine st message).state.coder.map
        Coder.ioSink
      = st.coder.map Coder.ioSink := by
  unfold run_prompt_streaming
  cases hc : st.coder with
  | none => simp [hc]
  | some c =>
    cases avail with
    | false => simp [hc]
    | true =>
      cases houtcome : (engine message).2 with
      | ok r => simp [houtcome, hc]
      | error e => simp [houtcome, hc]

/-- C5 (divergence evidence): `run_prompt_streaming` computes
`enhanced_message = action_prefix + message` at `server.py` line 936
but the engine call at line 972 receives the bare `message`: on the
instruction "add a comment" the engine is invoked with exactly
"add a comment", which differs from the preamble-prefixed text the
claim (and the dead `enhanced_message` assignment) prescribe. -/
theorem run_prompt_streaming_passes_bare_message :
    ((run_prompt_streaming true 1 (fun _ => ([], Except.ok "done"))
        { coder := some { absFnames := ∅, ioSink := 0 } }
        "add a comment").engineMessages = ["add a comment"]) ∧
    enhanced_message "add a comment" ≠ "add a comment" := by
  refine ⟨rfl, ?_⟩
  decide

/-- A JSON-RPC correlation identifier (a JSON number or string). -/
inductive RpcId
  | num (n : Int)
  | str (s : String)
  deriving Repr, DecidableEq

/-- The `params` member of an inbound frame after JSON decoding: a keyed
mapping (Python `dict`, also the default `{}` when absent), a positional
sequence (Python `list`), or any other JSON value (which `handle_request`
answers with a zero-argument call). -/
inductive RpcParams
  | byName (fields : List (String × String))
  | byPosition (args : List String)
  | otherShape
  deriving Repr, DecidableEq

/-- An inbound frame as `json.loads` + `dict.get` deliver it to
`handle_request`: each member may be absent, and an `id` that is JSON
`null` is indistinguishable from a missing one (`request.get("id")`
yields `None` for both). -/
structure RpcRequest where
  jsonrpc : Option String := none
  method : Option String := none
  params : RpcParams := .byName []
  id : Option RpcId := none

/-- Result of `json.loads` on one input line: a decode failure or a
decoded request object. -/
inductive ParsedLine
  | malformed
  | parsed (req : RpcRequest)

/-- Outcome of calling a bridge method with adapted parameters: a normal
return (`ρ` is the method's result-dictionary type), a `TypeError`
(parameter-shape mismatch), or any other exception with its traceback. -/
inductive MethodOutcome (ρ : Type)
  | ok (result : ρ)
  | typeErr (msg : String)
  | raised (msg : String) (tb : String)

/-- One outbound response frame: a success response echoing the inbound
id, or an error response (`error_response`, `server.py` lines
1091-1103) with code, message and optional data. -/
inductive ResponseFrame (ρ : Type)
  | result (id : RpcId) (res : ρ)
  | rpcError (id : Option RpcId) (code : Int) (message : String)
      (data : Option String)

/-- What one `handle_request` call did: which bridge method (if any) was
actually called, and the response frame (if any) returned to the loop. -/
structure Dispatch (ρ : Type) where
  invoked : Option String
  response : Option (ResponseFrame ρ)

/-- `JSONRPCServer.handle_request` (`server.py` lines 1033-1089).
`hasMethod` is `hasattr(self.bridge, ·)` and `invoke` performs the
adapted call.  The branch order follows the source: protocol-version
check (line 1047), then the notification short-circuit returning `None`
with no routing (lines 1054-1056), then routing (line 1059), the call
(lines 1063-1070), and the `except` clauses mapping `TypeError` to
`-32602` and any other exception to `-32603`.  A `method` member that is
not a string makes `hasattr` raise `TypeError`, landing in the same
`-32602` clause. -/
def handle_request {ρ : Type} (hasMethod : String → Bool)
    (invoke : String → RpcParams → MethodOutcome ρ)
    (pl : ParsedLine) : Dispatch ρ :=
  match pl with
  | .malformed => ⟨none, some (.rpcError none (-32700) "Parse error" none)⟩
  | .parsed req =>
    if req.jsonrpc ≠ some "2.0" then
      ⟨none, some (.rpcError none (-32600) "Invalid Request" none)⟩
    else
      match req.id with
      | none => ⟨none, none⟩
      | some rid =>
        match req.method with
        | none =>
          ⟨none, some (.rpcError (some rid) (-32602)
            "Invalid params: hasattr(): attribute name must be string" none)⟩
        | some m =>
          if !hasMethod m then
            ⟨none, some (.rpcError (some rid) (-32601)
              ("Method not found: " ++ m) none)⟩
          else
            match invoke m req.params with
            | .ok r => ⟨some m, some (.result rid r)⟩
            | .typeErr msg =>
              ⟨some m, some (.rpcError (some rid) (-32602)
                ("Invalid params: " ++ msg) none)⟩
            | .raised msg tb =>
              ⟨some m, some (.rpcError (some rid) (-32603)
                ("Internal error: " ++ msg) (some tb))⟩

/-- Python's `str.strip()` with no argument: remove leading and
trailing whitespace. -/
def pyStrip (s : String) : String :=
  ⟨((s.data.dropWhile Char.isWhitespace).reverse.dropWhile
      Char.isWhitespace).reverse⟩

/-- The read-dispatch-write loop of `JSONRPCServer.run` (`server.py`
lines 1112-1126), mapping the list of input lines to the list of
response frames written: each line is stripped; empty lines are
skipped; the bare sentinel `__EXIT__` invokes shutdown and terminates
the loop; any other line is handled and its response, when present, is
printed before the next read. -/
def server_loop {ρ : Type} (parse : String → ParsedLine)
    (hasMethod : String → Bool)
    (invoke : String → RpcParams → MethodOutcome ρ) :
    List String → List (ResponseFrame ρ)
  | [] => []
  | line :: rest =>
    let l := pyStrip line
    if l = "" then server_loop parse hasMethod invoke rest
    else if l = "__EXIT__" then []
    else
      match (handle_request hasMethod invoke (parse l)).response with
      | some r => r :: server_loop parse hasMethod invoke rest
      | none => server_loop parse hasMethod invoke rest

/-- C4 (counterexample): on the frame
`{jsonrpc: "2.0", method: "shutdown", id: null}` the dispatcher invokes
nothing — `handle_request` returns `None` at `server.py` line 1056
before the routing step — so the claim that an id-less frame is "still
routed and invoked for its side effects" fails; no response frame is
produced either. -/
theorem notification_frame_not_invoked :
    handle_request (ρ := Nat) (fun m => m == "shutdown")
        (fun _ _ => .ok 0)
        (.parsed { jsonrpc := some "2.0", method := some "shutdown",
                   id := none })
      = ⟨none, none⟩ := rfl

/-- C4 (amended): an inbound frame that decodes, carries protocol tag
"2.0", and has an absent or null id produces no response frame and is
not routed or invoked at all: the dispatcher returns before the routing
step, whatever the method name, parameters, registry and call outcomes
are. -/
theorem notification_frame_no_response_no_invoke {ρ : Type}
    (hasMethod : String → Bool)
    (invoke : String → RpcParams → MethodOutcome ρ) (req : RpcRequest)
    (hver : req.jsonrpc = some "2.0") (hid : req.id = none) :
    handle_request hasMethod invoke (.parsed req)
      = ⟨none, none⟩ := by
  simp [handle_request, hver, hid]

/-- Witness for `notification_frame_no_response_no_invoke` on a concrete
id-less frame naming a real method with keyed parameters. -/
theorem notification_frame_no_response_no_invoke_witness :
    handle_request (ρ := Nat) (fun m => m == "add_files")
        (fun _ _ => .ok 7)
        (.parsed { jsonrpc := some "2.0", method := some "add_files",
                   params := .byName [("file_paths", "/tmp/a")],
                   id := none })
      = ⟨none, none⟩ :=
  notification_frame_no_response_no_invoke _ _ _ rfl rfl

/-- C8: a non-empty, non-sentinel input line that fails JSON decoding
contributes exactly one response frame — the `-32700` parse error with
null id from `server.py` line 1080 — and the loop goes on to process
the remaining lines exactly as it would have without the bad line. -/
theorem malformed_line_one_error_then_continue {ρ : Type}
    (parse : String → ParsedLine) (hasMethod : String → Bool)
    (invoke : String → RpcParams → MethodOutcome ρ)
    (line : String) (rest : List String)
    (hne : pyStrip line ≠ "") (hnexit : pyStrip line ≠ "__EXIT__")
    (hmal : parse (pyStrip line) = .malformed) :
    server_loop parse hasMethod invoke (line :: rest)
      = .rpcError none (-32700) "Parse error" none
          :: server_loop parse hasMethod invoke rest := by
  simp [server_loop, hne, hnexit, hmal, handle_request]

/-- Witness for `malformed_line_one_error_then_continue`: a concrete
invalid-JSON line followed by a further (well-formed, answered) line. -/
theorem malformed_line_one_error_then_continue_witness :
    server_loop (ρ := Nat)
        (fun l => if l = "not json" then .malformed
          else .parsed { jsonrpc := some "2.0", method := some "ping",
                         id := some (.num 1) })
        (fun m => m == "ping") (fun _ _ => .ok 3)
        ["not json", "ping-line"]
      = [.rpcError none (-32700) "Parse error" none,
         .result (.num 1) 3] := by
  have h := malformed_line_one_error_then_continue (ρ := Nat)
    (fun l => if l = "not json" then .malformed
      else .parsed { jsonrpc := some "2.0", method := some "ping",
                     id := some (.num 1) })
    (fun m => m == "ping") (fun _ _ => .ok 3)
    "not json" ["ping-line"]
    (by decide) (by decide) rfl
  rw [h]
  rfl
